import Mathlib

/-!
Verification of the train-delay model-training pipeline
(notebook `03_train_model.ipynb`).

The notebook loads departure records from a database, engineers features
(`create_features`), encodes the route key with a scikit-learn
`LabelEncoder`, trains two regressors, evaluates them (`evaluate_model`),
selects the one with the lower RMSE, persists three artifacts, and exposes
a `make_sample_prediction` helper.

Shallow-embedding conventions:
* floating-point numbers are modelled as exact rationals (`ℚ`); the real
  square root and the trigonometric functions, which are irrational-valued,
  are modelled over `ℝ`;
* the code stores `route_std_delay = √(sample variance)` and
  `route_distance = √(Δlat² + Δlong²) · 111`; since the square root is not
  computable on `ℚ`, the rows carry the squared quantities
  (`route_std_delay_sq`, `route_distance_sq`), and `√` is applied (over `ℝ`)
  exactly where the code consumes the column.  Equality of the non-negative
  standard deviations is equivalent to equality of their squares;
* a fitted model is an opaque prediction function;
* printing to the console is not modelled; a code path that prints an error
  and returns `None` is modelled as returning `none`.
-/

namespace TrainDelay

/-- One row of the joined SQL result: a departure with its delay and the
coordinates of both stations (columns selected by the query in the
notebook's data-loading cell). -/
structure DepartureRecord where
  train_signature_code : String
  from_station : String
  to_station : String
  hour : ℕ
  delay : ℚ
  from_lat : ℚ
  from_long : ℚ
  to_lat : ℚ
  to_long : ℚ
deriving DecidableEq, Repr

/-- `df['route'] = df['from_station'] + '_' + df['to_station']` -/
def route (r : DepartureRecord) : String :=
  r.from_station ++ "_" ++ r.to_station

/-- `df['hour_sin'] = np.sin(2 * np.pi * df['hour'] / 24)` -/
noncomputable def hour_sin (hour : ℕ) : ℝ :=
  Real.sin (2 * Real.pi * hour / 24)

/-- `df['hour_cos'] = np.cos(2 * np.pi * df['hour'] / 24)` -/
noncomputable def hour_cos (hour : ℕ) : ℝ :=
  Real.cos (2 * Real.pi * hour / 24)

/-- `df['is_rush_hour'] = ((df['hour'] >= 7) & (df['hour'] <= 9)) |
((df['hour'] >= 17) & (df['hour'] <= 19))` -/
def is_rush_hour (hour : ℕ) : Bool :=
  (7 ≤ hour && hour ≤ 9) || (17 ≤ hour && hour ≤ 19)

/-- `df['is_night'] = (df['hour'] <= 6) | (df['hour'] >= 22)` -/
def is_night (hour : ℕ) : Bool :=
  hour ≤ 6 || 22 ≤ hour

/-- Delays of all records sharing route key `k`: the group
`df.groupby('route')['delay']` for key `k`, in row order. -/
def routeDelays (rs : List DepartureRecord) (k : String) : List ℚ :=
  (rs.filter (fun r => route r == k)).map (·.delay)

/-- Pandas `mean` of a column (sum divided by length; `ℚ` division by zero
yields `0`, but the groups the pipeline builds are never empty). -/
def listMean (l : List ℚ) : ℚ :=
  l.sum / l.length

/-- The square of pandas `std` (sample standard deviation, `ddof = 1`)
composed with the notebook's `fillna(0)`: a group with at most one element
gets `0` (pandas would give `NaN`, which `fillna` turns into `0`), otherwise
the sample variance `Σ (d - mean)² / (n - 1)`.  The code's
`route_std_delay` column is the square root of this value. -/
def listSampleVar (l : List ℚ) : ℚ :=
  if l.length ≤ 1 then 0
  else ((l.map (fun d => (d - listMean l) ^ 2)).sum) / ((l.length : ℚ) - 1)

/-- The sorted distinct route keys: pandas `groupby('route')` iterates the
groups in sorted key order. -/
def routeKeys (rs : List DepartureRecord) : List String :=
  List.insertionSort (· ≤ ·) (rs.map route).dedup

/-- `route_stats = df.groupby('route')['delay'].agg(['mean','std','count'])`
followed by the column renaming and `fillna(0)` on the std column: one table
row `(route, route_avg_delay, route_std_delay², route_count)` per distinct
route. -/
def route_stats (rs : List DepartureRecord) :
    List (String × ℚ × ℚ × ℕ) :=
  (routeKeys rs).map (fun k =>
    (k, listMean (routeDelays rs k), listSampleVar (routeDelays rs k),
      (routeDelays rs k).length))

/-- One output row of `create_features`: the original columns kept by the
downstream cells plus the engineered columns.  `hour_sin`/`hour_cos` are
functions of `hour` (see `hour_sin`, `hour_cos`); `route_distance_sq` and
`route_std_delay_sq` are the squares of the code's `route_distance / 111`
and `route_std_delay` columns (see the header comment). -/
structure FeatureRow where
  from_station : String
  to_station : String
  hour : ℕ
  delay : ℚ
  route : String
  route_distance_sq : ℚ
  route_avg_delay : ℚ
  route_std_delay_sq : ℚ
  route_count : ℕ
  is_rush_hour : Bool
  is_night : Bool
deriving DecidableEq, Repr

/-- The row `df.merge(route_stats, on='route', how='left')` produces for
record `r`: its route's statistics looked up in the `route_stats` table
(`how='left'` would give NaN for an absent key; every key of `rs` is
present, and the default `(0,0,0)` is never used). -/
def featureRow (rs : List DepartureRecord) (r : DepartureRecord) :
    FeatureRow :=
  let k := route r
  let s := ((route_stats rs).lookup k).getD (0, 0, 0)
  { from_station := r.from_station
    to_station := r.to_station
    hour := r.hour
    delay := r.delay
    route := k
    route_distance_sq := (r.to_lat - r.from_lat) ^ 2 +
      (r.to_long - r.from_long) ^ 2
    route_avg_delay := s.1
    route_std_delay_sq := s.2.1
    route_count := s.2.2
    is_rush_hour := is_rush_hour r.hour
    is_night := is_night r.hour }

/-- `create_features`: the pure record-set → augmented-record-set transform
of the feature-engineering cell. -/
def create_features (rs : List DepartureRecord) : List FeatureRow :=
  rs.map (featureRow rs)

/-- `feature_columns` exactly as listed in the notebook. -/
def feature_columns : List String :=
  ["hour", "hour_sin", "hour_cos", "route_distance",
   "route_avg_delay", "route_std_delay", "route_count",
   "is_rush_hour", "is_night", "route"]

/-- `feature_names = X.columns`: encoding replaces the `route` column in
place, so the column list is unchanged. -/
def feature_names : List String := feature_columns

namespace LabelEncoder

/-- `LabelEncoder.fit`: the fitted `classes_` array, i.e. `np.unique` of the
keys — the lexicographically sorted list of distinct keys. -/
def fit (keys : List String) : List String :=
  List.insertionSort (· ≤ ·) keys.dedup

/-- `LabelEncoder.transform` on one key: its index in `classes_`.  For a key
seen during fit this is its position in the sorted distinct list; scikit-learn
raises on an unseen key, modelled here by the out-of-range sentinel
`classes.length` (which `List.indexOf` returns for an absent element). -/
def transform (classes : List String) (k : String) : ℕ :=
  classes.indexOf k

/-- `joblib.dump` / `joblib.load` of the encoders dictionary: serialization
round-trips the mapping unchanged. -/
def persist (classes : List String) : List String := classes

end LabelEncoder

/-- The result dictionary of `evaluate_model`.  `predictions` is the clamped
prediction array; `mse` is the mean squared error — the code's `rmse` is
`√mse`, kept as the square here because `√` is not computable on `ℚ`
(the square root is strictly monotone on non-negatives, so every comparison
of RMSE values is a comparison of the stored squares). -/
structure EvalResult where
  predictions : List ℚ
  mse : ℚ
  mae : ℚ
  r2 : ℚ
deriving Repr

/-- `evaluate_model(model, X_test, y_test, model_name)`: predict, clamp each
prediction to a zero minimum (`np.maximum(y_pred, 0)`), then compute the
metrics from the clamped predictions.  The model is the opaque fitted
regressor, modelled as its prediction function on one feature vector; the
`model_name` argument is only printed and is dropped. -/
def evaluate_model (model : List ℚ → ℚ) (X_test : List (List ℚ))
    (y_test : List ℚ) : EvalResult :=
  let y_pred := (X_test.map model).map (fun p => max p 0)
  let n : ℚ := y_test.length
  let pairs := y_test.zip y_pred
  let mse := ((pairs.map (fun t => (t.1 - t.2) ^ 2)).sum) / n
  let mae := ((pairs.map (fun t => |t.1 - t.2|)).sum) / n
  let ybar := y_test.sum / n
  let r2 := 1 - ((pairs.map (fun t => (t.1 - t.2) ^ 2)).sum) /
    ((y_test.map (fun v => (v - ybar) ^ 2)).sum)
  { predictions := y_pred, mse := mse, mae := mae, r2 := r2 }

/-- The model-selection cell:
`if xgb_results['rmse'] < rf_results['rmse']: best = XGBoost else: best = RF`,
as a function of the two held-out RMSE values. -/
def select_best (xgb_rmse rf_rmse : ℚ) : String :=
  if xgb_rmse < rf_rmse then "XGBoost" else "Random Forest"

/-- The `model_info.json` metadata record written by the saving cell. -/
structure ModelInfo where
  feature_names : List String
  model_type : String
  rmse : ℚ
  mae : ℚ
  r2 : ℚ
deriving Repr

/-- `feature_info = {'feature_names': list(feature_names), 'model_type':
best_model_name, 'performance': {'rmse': ..., 'mae': ..., 'r2': ...}}`. -/
def feature_info (best_model_name : String) (rmse mae r2 : ℚ) : ModelInfo :=
  { feature_names := feature_names
    model_type := best_model_name
    rmse := rmse
    mae := mae
    r2 := r2 }

/-- `make_sample_prediction(from_station, to_station, hour)`: filter
`df_features` to the requested origin/destination pair; if no row matches,
print "No data found" and return `None` (modelled as `none`); otherwise take
the first matching row, build the 10-entry feature vector in
`feature_names` order, predict with the best model, and clamp at zero. -/
noncomputable def make_sample_prediction (df_features : List FeatureRow)
    (route_classes : List String) (best_model : List ℝ → ℝ)
    (from_station to_station : String) (hour : ℕ) : Option ℝ :=
  let sample_route := df_features.filter
    (fun r => r.from_station == from_station && r.to_station == to_station)
  match sample_route with
  | [] => none
  | route_data :: _ =>
    let X_pred : List ℝ :=
      [(hour : ℝ), hour_sin hour, hour_cos hour,
       Real.sqrt route_data.route_distance_sq * 111,
       (route_data.route_avg_delay : ℝ),
       Real.sqrt route_data.route_std_delay_sq,
       (route_data.route_count : ℝ),
       if (7 ≤ hour ∧ hour ≤ 9) ∨ (17 ≤ hour ∧ hour ≤ 19) then 1 else 0,
       if hour ≤ 6 ∨ 22 ≤ hour then 1 else 0,
       (LabelEncoder.transform route_classes route_data.route : ℝ)]
    some (max 0 (best_model X_pred))

/-! ### Theorems -/

/-- C6: for every row produced by the Feature Builder, `is_rush_hour` is
true iff the row's hour is in [7,9] or [17,19] inclusive, and `is_night` is
true iff the row's hour is ≤ 6 or ≥ 22. -/
theorem c6_rush_night_definitions (rs : List DepartureRecord)
    (row : FeatureRow) (hrow : row ∈ create_features rs) :
    (row.is_rush_hour = true ↔
      ((7 ≤ row.hour ∧ row.hour ≤ 9) ∨ (17 ≤ row.hour ∧ row.hour ≤ 19))) ∧
    (row.is_night = true ↔ (row.hour ≤ 6 ∨ 22 ≤ row.hour)) := by
  obtain ⟨r, -, rfl⟩ := List.mem_map.mp hrow
  simp only [featureRow, is_rush_hour, is_night, Bool.or_eq_true,
    Bool.and_eq_true, decide_eq_true_eq]
  exact ⟨trivial, trivial⟩

/-- C6 witness: the row built from an 08:00 departure is a rush-hour,
non-night row. -/
theorem c6_rush_night_definitions_witness :
    ((TrainDelay.featureRow [⟨"t", "A", "B", 8, 5, 0, 0, 1, 1⟩]
        ⟨"t", "A", "B", 8, 5, 0, 0, 1, 1⟩).is_rush_hour = true ↔
      ((7 ≤ 8 ∧ 8 ≤ 9) ∨ (17 ≤ 8 ∧ 8 ≤ 19))) ∧
    ((TrainDelay.featureRow [⟨"t", "A", "B", 8, 5, 0, 0, 1, 1⟩]
        ⟨"t", "A", "B", 8, 5, 0, 0, 1, 1⟩).is_night = true ↔
      (8 ≤ 6 ∨ 22 ≤ 8)) :=
  c6_rush_night_definitions [⟨"t", "A", "B", 8, 5, 0, 0, 1, 1⟩] _
    (by simp [create_features])

/-- C7: for every hour value in [0,23], `is_rush_hour` and `is_night` are
never both true. -/
theorem c7_rush_night_exclusive (hour : ℕ) (_h : hour ≤ 23) :
    ¬(is_rush_hour hour = true ∧ is_night hour = true) := by
  simp only [is_rush_hour, is_night, Bool.or_eq_true, Bool.and_eq_true,
    decide_eq_true_eq]
  omega

/-- C7 witness at hour 8. -/
theorem c7_rush_night_exclusive_witness :
    ¬(is_rush_hour 8 = true ∧ is_night 8 = true) :=
  c7_rush_night_exclusive 8 (by decide)

/-- C5: for every hour in [0,23], `hour_sin` is `sin(2π·hour/24)`,
`hour_cos` is `cos(2π·hour/24)`, and `hour_sin² + hour_cos² = 1` (the
identity is exact over the reals, hence in particular ≈ 1). -/
theorem c5_cyclical_encoding (hour : ℕ) (_h : hour ≤ 23) :
    hour_sin hour = Real.sin (2 * Real.pi * hour / 24) ∧
    hour_cos hour = Real.cos (2 * Real.pi * hour / 24) ∧
    hour_sin hour ^ 2 + hour_cos hour ^ 2 = 1 :=
  ⟨rfl, rfl, Real.sin_sq_add_cos_sq _⟩

/-- C5 witness at hour 23. -/
theorem c5_cyclical_encoding_witness :
    hour_sin 23 = Real.sin (2 * Real.pi * 23 / 24) ∧
    hour_cos 23 = Real.cos (2 * Real.pi * 23 / 24) ∧
    hour_sin 23 ^ 2 + hour_cos 23 ^ 2 = 1 :=
  c5_cyclical_encoding 23 (by decide)

/-- C2: for every model output vector — including vectors with negative
entries — the Evaluator clamps each prediction to a zero minimum before
computing the metrics: the prediction array it uses (and returns) is the
clamped array, which never contains a negative value. -/
theorem c2_evaluator_clamps (model : List ℚ → ℚ) (X_test : List (List ℚ))
    (y_test : List ℚ) :
    (evaluate_model model X_test y_test).predictions =
      (X_test.map model).map (fun p => max p 0) ∧
    ∀ p ∈ (evaluate_model model X_test y_test).predictions, 0 ≤ p := by
  refine ⟨rfl, ?_⟩
  intro p hp
  simp only [evaluate_model, List.mem_map] at hp
  obtain ⟨q, -, rfl⟩ := hp
  exact le_max_right q 0

/-- C2 witness: a model that always outputs −3 yields the clamped
prediction array `[0]`, whose entry is non-negative. -/
theorem c2_evaluator_clamps_witness :
    (evaluate_model (fun _ => (-3 : ℚ)) [[(0 : ℚ)]] [(1 : ℚ)]).predictions =
      ([[(0 : ℚ)]].map (fun _ => (-3 : ℚ))).map (fun p => max p 0) ∧
    (0 : ℚ) ≤ (0 : ℚ) :=
  ⟨(c2_evaluator_clamps (fun _ => (-3 : ℚ)) [[(0 : ℚ)]] [(1 : ℚ)]).1,
   (c2_evaluator_clamps (fun _ => (-3 : ℚ)) [[(0 : ℚ)]] [(1 : ℚ)]).2 0
     (by decide)⟩

/-- Looking up a key in an association list whose entries are built by
applying one function to a key list returns that function's value at the
key, provided the key occurs in the list. -/
theorem lookup_map_self {β : Type} (keys : List String) (f : String → β)
    (k : String) (hk : k ∈ keys) :
    (keys.map (fun a => (a, f a))).lookup k = some (f k) := by
  induction keys with
  | nil => cases hk
  | cons a t ih =>
    simp only [List.map_cons, List.lookup_cons]
    by_cases hka : k = a
    · subst hka; simp
    · have hbeq : (k == a) = false := beq_eq_false_iff_ne.mpr hka
      rw [hbeq]
      exact ih (by
        rcases List.mem_cons.mp hk with h | h
        · exact absurd h hka
        · exact h)

/-- C3: the Feature Builder sets `route_avg_delay`, `route_std_delay` and
`route_count` to the mean, sample standard deviation (as its square;
defaulting to 0 for a single observation) and count of `delay` aggregated
per route over the entire input record set; and on the scenario input
{(A,B,08:00,delay=5), (A,B,08:00,delay=7), (A,B,20:00,delay=3)} every row
of route "A_B" gets `route_avg_delay` 5, `route_count` 3, and a
`route_std_delay` whose square is the sample variance of [5,7,3], namely
2² — so the standard deviation itself is the sample standard deviation 2. -/
theorem c3_route_statistics (rs : List DepartureRecord)
    (r : DepartureRecord) (hr : r ∈ rs) :
    (featureRow rs r).route_avg_delay =
      listMean (routeDelays rs (route r)) ∧
    (featureRow rs r).route_count = (routeDelays rs (route r)).length ∧
    (featureRow rs r).route_std_delay_sq =
      listSampleVar (routeDelays rs (route r)) ∧
    ((routeDelays rs (route r)).length = 1 →
      (featureRow rs r).route_std_delay_sq = 0) ∧
    ((create_features
        [⟨"t1", "A", "B", 8, 5, 0, 0, 1, 1⟩,
         ⟨"t2", "A", "B", 8, 7, 0, 0, 1, 1⟩,
         ⟨"t3", "A", "B", 20, 3, 0, 0, 1, 1⟩]).map
        (fun row => (row.route, row.route_avg_delay, row.route_count,
          row.route_std_delay_sq)) =
      [("A_B", 5, 3, 4), ("A_B", 5, 3, 4), ("A_B", 5, 3, 4)] ∧
      listSampleVar [5, 7, 3] = 2 ^ 2) := by
  have hmem : route r ∈ routeKeys rs :=
    ((List.perm_insertionSort _ _).mem_iff).mpr
      (List.mem_dedup.mpr (List.mem_map_of_mem route hr))
  have hlook : (route_stats rs).lookup (route r) =
      some (listMean (routeDelays rs (route r)),
        listSampleVar (routeDelays rs (route r)),
        (routeDelays rs (route r)).length) :=
    lookup_map_self (routeKeys rs)
      (fun k => (listMean (routeDelays rs k), listSampleVar (routeDelays rs k),
        (routeDelays rs k).length)) (route r) hmem
  refine ⟨?_, ?_, ?_, ?_, ?_, by norm_num [listSampleVar, listMean]⟩
  · simp [featureRow, hlook]
  · simp [featureRow, hlook]
  · simp [featureRow, hlook]
  · intro hlen
    simp [featureRow, hlook, listSampleVar, hlen]
  · have hkeys : routeKeys
        [⟨"t1", "A", "B", 8, 5, 0, 0, 1, 1⟩,
         ⟨"t2", "A", "B", 8, 7, 0, 0, 1, 1⟩,
         ⟨"t3", "A", "B", 20, 3, 0, 0, 1, 1⟩] = ["A_B"] := by decide
    have hd : routeDelays
        [⟨"t1", "A", "B", 8, 5, 0, 0, 1, 1⟩,
         ⟨"t2", "A", "B", 8, 7, 0, 0, 1, 1⟩,
         ⟨"t3", "A", "B", 20, 3, 0, 0, 1, 1⟩] "A_B" = [5, 7, 3] := by
      decide
    have happ : ("A" ++ "_" ++ "B" : String) = "A_B" := rfl
    simp only [create_features, route_stats, hkeys, List.map, featureRow,
      route, happ, hd]
    norm_num [List.lookup, listMean, listSampleVar]

/-- C3 witness: the general aggregation facts instantiated on the first
scenario record. -/
theorem c3_route_statistics_witness :
    (featureRow
        [⟨"t1", "A", "B", 8, 5, 0, 0, 1, 1⟩,
         ⟨"t2", "A", "B", 8, 7, 0, 0, 1, 1⟩,
         ⟨"t3", "A", "B", 20, 3, 0, 0, 1, 1⟩]
        ⟨"t1", "A", "B", 8, 5, 0, 0, 1, 1⟩).route_avg_delay =
      listMean (routeDelays
        [⟨"t1", "A", "B", 8, 5, 0, 0, 1, 1⟩,
         ⟨"t2", "A", "B", 8, 7, 0, 0, 1, 1⟩,
         ⟨"t3", "A", "B", 20, 3, 0, 0, 1, 1⟩]
        (route ⟨"t1", "A", "B", 8, 5, 0, 0, 1, 1⟩)) :=
  (c3_route_statistics
    [⟨"t1", "A", "B", 8, 5, 0, 0, 1, 1⟩,
     ⟨"t2", "A", "B", 8, 7, 0, 0, 1, 1⟩,
     ⟨"t3", "A", "B", 20, 3, 0, 0, 1, 1⟩]
    ⟨"t1", "A", "B", 8, 5, 0, 0, 1, 1⟩ (by decide)).1

/-- C1 counterexample: the claim says a tie in RMSE favours the model
evaluated first (XGBoost); at the tie 4.0 / 4.0 the code selects Random
Forest, not XGBoost. -/
theorem c1_counterexample_tie :
    select_best 4 4 = "Random Forest" ∧ select_best 4 4 ≠ "XGBoost" := by
  constructor
  · simp [select_best]
  · simp [select_best]

/-- C1 (amended): the Selector chooses the model with strictly lower RMSE
on the held-out set, and when the two RMSE values are equal it chooses the
model evaluated second in the fixed order (Random Forest); in particular,
between RMSE 4.2 and 3.9 it selects the model with RMSE 3.9 regardless of
which slot that model occupies. -/
theorem c1_selector_lower_rmse :
    (∀ x r : ℚ,
      (x < r → select_best x r = "XGBoost") ∧
      (r < x → select_best x r = "Random Forest") ∧
      (x = r → select_best x r = "Random Forest")) ∧
    select_best (42 / 10) (39 / 10) = "Random Forest" ∧
    select_best (39 / 10) (42 / 10) = "XGBoost" := by
  refine ⟨fun x r => ⟨fun hlt => ?_, fun hgt => ?_, fun heq => ?_⟩, ?_, ?_⟩
  · simp [select_best, hlt]
  · simp [select_best, not_lt.mpr hgt.le]
  · simp [select_best, heq]
  · norm_num [select_best]
  · norm_num [select_best]

/-- C1 witness: at RMSE 1 vs 2 the strictly lower model (XGBoost) is
selected. -/
theorem c1_selector_lower_rmse_witness :
    select_best 1 2 = "XGBoost" :=
  (c1_selector_lower_rmse.1 1 2).1 (by norm_num)

/-- C9: the feature-name list recorded in the persisted metadata is exactly
the 10 columns hour, hour_sin, hour_cos, route_distance, route_avg_delay,
route_std_delay, route_count, is_rush_hour, is_night, route (the encoded
route column), in that order, together with the chosen model's type label
and its three metrics. -/
theorem c9_metadata_contents (best_model_name : String) (rmse mae r2 : ℚ) :
    (feature_info best_model_name rmse mae r2).feature_names =
      ["hour", "hour_sin", "hour_cos", "route_distance",
       "route_avg_delay", "route_std_delay", "route_count",
       "is_rush_hour", "is_night", "route"] ∧
    (feature_info best_model_name rmse mae r2).feature_names.length = 10 ∧
    (feature_info best_model_name rmse mae r2).model_type =
      best_model_name ∧
    (feature_info best_model_name rmse mae r2).rmse = rmse ∧
    (feature_info best_model_name rmse mae r2).mae = mae ∧
    (feature_info best_model_name rmse mae r2).r2 = r2 :=
  ⟨rfl, rfl, rfl, rfl, rfl, rfl⟩

/-- Every key occurring in the fitted sequence occurs in the fitted
`classes_` array (the sorted deduplicated key list), and conversely. -/
theorem mem_fit_iff (keys : List String) (k : String) :
    k ∈ LabelEncoder.fit keys ↔ k ∈ keys :=
  ((List.perm_insertionSort _ _).mem_iff).trans List.mem_dedup

/-- C4: fitting the Encoder maps each key of the fitted sequence to an
integer below the distinct-key count; distinct keys receive distinct
integers; and encoding a key, then looking it up in the persisted mapping,
returns the same integer used during training (serialization round-trips
the mapping unchanged). -/
theorem c4_encoder_roundtrip (keys : List String) (k : String)
    (hk : k ∈ keys) :
    LabelEncoder.transform (LabelEncoder.fit keys) k <
      (LabelEncoder.fit keys).length ∧
    (LabelEncoder.fit keys).length = keys.dedup.length ∧
    (∀ k2 ∈ keys,
      LabelEncoder.transform (LabelEncoder.fit keys) k2 =
        LabelEncoder.transform (LabelEncoder.fit keys) k → k2 = k) ∧
    LabelEncoder.transform
        (LabelEncoder.persist (LabelEncoder.fit keys)) k =
      LabelEncoder.transform (LabelEncoder.fit keys) k := by
  have hmem : k ∈ LabelEncoder.fit keys := (mem_fit_iff keys k).mpr hk
  refine ⟨List.indexOf_lt_length.mpr hmem,
    (List.perm_insertionSort _ _).length_eq, ?_, rfl⟩
  intro k2 hk2 heq
  exact (List.indexOf_inj ((mem_fit_iff keys k2).mpr hk2) hmem).mp heq

/-- C4 witness on the key sequence ["B_C", "A_B", "B_C"]: the key "A_B" is
encoded as an integer below the distinct count 2, injectively, and the
persisted mapping returns the same integer. -/
theorem c4_encoder_roundtrip_witness :
    LabelEncoder.transform (LabelEncoder.fit ["B_C", "A_B", "B_C"]) "A_B" <
      (LabelEncoder.fit ["B_C", "A_B", "B_C"]).length ∧
    (LabelEncoder.fit ["B_C", "A_B", "B_C"]).length =
      ["B_C", "A_B", "B_C"].dedup.length ∧
    (∀ k2 ∈ ["B_C", "A_B", "B_C"],
      LabelEncoder.transform (LabelEncoder.fit ["B_C", "A_B", "B_C"]) k2 =
        LabelEncoder.transform (LabelEncoder.fit ["B_C", "A_B", "B_C"])
          "A_B" → k2 = "A_B") ∧
    LabelEncoder.transform
        (LabelEncoder.persist (LabelEncoder.fit ["B_C", "A_B", "B_C"]))
        "A_B" =
      LabelEncoder.transform (LabelEncoder.fit ["B_C", "A_B", "B_C"])
        "A_B" :=
  c4_encoder_roundtrip ["B_C", "A_B", "B_C"] "A_B" (by decide)

/-- C10: the fitted `classes_` array is the lexicographically sorted
duplicate-free list of the keys seen during fit — so each distinct key is
assigned its index in that sorted list — and the fitted mapping depends
only on the set of distinct keys, not on row order or multiplicity. -/
theorem c10_encoder_sorted_distinct (xs ys : List String) :
    List.Sorted (· ≤ ·) (LabelEncoder.fit xs) ∧
    (LabelEncoder.fit xs).Nodup ∧
    (∀ k, k ∈ LabelEncoder.fit xs ↔ k ∈ xs) ∧
    (∀ k, LabelEncoder.transform (LabelEncoder.fit xs) k =
      (LabelEncoder.fit xs).indexOf k) ∧
    ((∀ k, k ∈ xs ↔ k ∈ ys) →
      LabelEncoder.fit xs = LabelEncoder.fit ys) := by
  have hsorted : ∀ zs : List String,
      List.Sorted (· ≤ ·) (LabelEncoder.fit zs) :=
    fun zs => List.sorted_insertionSort _ _
  have hnodup : ∀ zs : List String, (LabelEncoder.fit zs).Nodup :=
    fun zs => ((List.perm_insertionSort _ _).nodup_iff).mpr
      (List.nodup_dedup zs)
  refine ⟨hsorted xs, hnodup xs, mem_fit_iff xs, fun _ => rfl, ?_⟩
  intro hset
  refine List.eq_of_perm_of_sorted ?_ (hsorted xs) (hsorted ys)
  refine List.perm_of_nodup_nodup_toFinset_eq (hnodup xs) (hnodup ys) ?_
  ext a
  simp only [List.mem_toFinset, mem_fit_iff]
  exact hset a

/-- C10 witness: ["B_C", "A_B", "B_C"] and ["A_B", "B_C"] have the same
distinct keys, hence the same fitted mapping. -/
theorem c10_encoder_sorted_distinct_witness :
    LabelEncoder.fit ["B_C", "A_B", "B_C"] =
      LabelEncoder.fit ["A_B", "B_C"] :=
  (c10_encoder_sorted_distinct ["B_C", "A_B", "B_C"] ["A_B", "B_C"]).2.2.2.2
    (by intro k; simp only [List.mem_cons, List.not_mem_nil, or_false]; tauto)

/-- C8: when the loaded data holds no record for the requested
origin/destination pair, `make_sample_prediction` returns the empty result
`none` (the code prints "No data found" and returns `None`): no crash, no
extrapolated value, no silent zero. -/
theorem c8_missing_route_none (df_features : List FeatureRow)
    (route_classes : List String) (best_model : List ℝ → ℝ)
    (from_station to_station : String) (hour : ℕ)
    (h : df_features.filter (fun r =>
      r.from_station == from_station && r.to_station == to_station) = []) :
    make_sample_prediction df_features route_classes best_model
      from_station to_station hour = none := by
  unfold make_sample_prediction
  simp only [h]

/-- C8 witness: with only an A→B row loaded, requesting the absent route
B→C returns `none`. -/
theorem c8_missing_route_none_witness :
    make_sample_prediction
      [⟨"A", "B", 8, 5, "A_B", 2, 5, 0, 1, true, false⟩] ["A_B"]
      (fun _ => 0) "B" "C" 8 = none :=
  c8_missing_route_none
    [⟨"A", "B", 8, 5, "A_B", 2, 5, 0, 1, true, false⟩] ["A_B"]
    (fun _ => 0) "B" "C" 8 (by decide)

end TrainDelay
